import Mathlib

/-!
Shallow embedding of the analysis core of the `babyphone` repository
(`baby-motion-detector/baby_monitor/{analyzer,pose}.py` and
`python_analyzer/baby_monitor/audio.py`).

Python floats are modelled as rationals (`ℚ`): every comparison and update
appearing in the embedded code is linear arithmetic, exact over `ℚ`.
External black boxes (the Euclidean point norm inside the movement metric,
and scipy's Welch power-spectral-density estimate inside the cry detector)
are taken as parameters of the embedded functions: the embedded theorems
hold for every instantiation of those parameters, in particular for the
actual numeric routines.
-/

namespace BabyMonitor

/-- A Python dict with string keys and numeric values, modelled as a
partial map. -/
abbrev ExtrasMap := String → Option ℚ

/-- The empty dict `{}`. -/
def emptyExtras : ExtrasMap := fun _ => none

/-- Dict assignment `m[k] = v`: overwrites the value at `k`, keeps the
other entries. -/
def setKey (m : ExtrasMap) (k : String) (v : ℚ) : ExtrasMap :=
  fun q => if q = k then some v else m q

/-- Event payload dict built in `_handle_pose_observation`: a `label` entry
(`None` or a string) and an optional `extras` sub-dict (numeric entries
modelled; `trace_id`/`description` carry no behavior). -/
structure EventPayload where
  label : Option String
  extras : Option ExtrasMap := none

/-- Mutable fields of `AnalyzerClient` used by the event arbitration layer
(`analyzer.py`, `__init__`): the shared last-event pair, the movement
cooldown stamp, the wake candidate/awake state and the current posture. -/
structure AnalyzerState where
  lastEventLabel : Option String := none
  lastEventTs : ℚ := 0
  lastMovementEventTs : ℚ := 0
  wakeCandidatePosture : Option String := none
  wakeCandidateSince : ℚ := 0
  isAwake : Bool := false
  currentPosture : Option String := none
deriving Repr, DecidableEq

/-- `self._event_cooldown = 2.0` -/
def eventCooldown : ℚ := 2

/-- `self._movement_cooldown = 2.0` -/
def movementCooldown : ℚ := 2

/-- `self._wake_min_duration = 3.0` -/
def wakeMinDuration : ℚ := 3

/-- State of a freshly constructed `AnalyzerClient`. -/
def initState : AnalyzerState := {}

/-- Embedding of `AnalyzerClient._register_event` (analyzer.py:483-495).
Returns the accept flag together with the updated client state and the
(possibly extras-stamped) event payload; a rejected call leaves both
untouched, exactly as the Python early returns do. -/
def registerEvent (s : AnalyzerState) (e : EventPayload) (timestamp : ℚ) :
    Bool × AnalyzerState × EventPayload :=
  match e.label with
  | none => (false, s, e)
  | some l =>
    if l = "" then (false, s, e)
    else if s.lastEventLabel = some l ∧ timestamp - s.lastEventTs < eventCooldown then
      (false, s, e)
    else
      (true,
        { s with lastEventLabel := some l, lastEventTs := timestamp },
        { e with
            extras :=
              some (setKey (e.extras.getD emptyExtras) "event_timestamp" timestamp) })

/-- Inputs of one call to `_handle_pose_observation`: the fields of the
`PoseObservation` the handler reads, together with `now = time.time()`
sampled at the top of the call. -/
structure Observation where
  posture : String
  movementScore : ℚ
  movementDetected : Bool
  time : ℚ
  extras : ExtrasMap := emptyExtras

/-- A quiet observation (no movement) of posture `p` at time `t`. -/
def obsAt (p : String) (t : ℚ) : Observation :=
  { posture := p, movementScore := 0, movementDetected := false, time := t }

/-- Movement section of `_handle_pose_observation` (analyzer.py:337-363):
movement-cooldown check, event registration, movement timestamp stamping. -/
def movementStep (s : AnalyzerState) (o : Observation) :
    AnalyzerState × List EventPayload :=
  if o.movementDetected ∧ movementCooldown ≤ o.time - s.lastMovementEventTs then
    let payload : EventPayload :=
      { label := some "movement",
        extras := some (setKey o.extras "movement_score" o.movementScore) }
    match registerEvent s payload o.time with
    | (true, s1, p1) => ({ s1 with lastMovementEventTs := o.time }, [p1])
    | (false, s1, _) => (s1, [])
  else (s, [])

/-- Wake section of `_handle_pose_observation` (analyzer.py:365-402):
the candidate/confirmed hysteresis machine with the non-upright reset. -/
def wakeStep (s : AnalyzerState) (o : Observation) :
    AnalyzerState × List EventPayload :=
  if o.posture = "sitting" ∨ o.posture = "standing" then
    if s.isAwake then ({ s with wakeCandidatePosture := none }, [])
    else if s.wakeCandidatePosture ≠ some o.posture then
      ({ s with wakeCandidatePosture := some o.posture,
                wakeCandidateSince := o.time }, [])
    else if wakeMinDuration ≤ o.time - s.wakeCandidateSince then
      let payload : EventPayload :=
        { label := some "wake",
          extras := some (setKey o.extras "duration" (o.time - s.wakeCandidateSince)) }
      match registerEvent s payload o.time with
      | (true, s1, p1) =>
          ({ s1 with isAwake := true, wakeCandidatePosture := none }, [p1])
      | (false, s1, _) => (s1, [])
    else (s, [])
  else
    ({ s with wakeCandidatePosture := none, wakeCandidateSince := 0,
              isAwake := false }, [])

/-- Embedding of `AnalyzerClient._handle_pose_observation`
(analyzer.py:323-405): movement section, then wake section, then the
`_current_posture` update; returns the emitted events in order. -/
def handlePoseObservation (s : AnalyzerState) (o : Observation) :
    AnalyzerState × List EventPayload :=
  let m := movementStep s o
  let w := wakeStep m.1 o
  ({ w.1 with currentPosture := some o.posture }, m.2 ++ w.2)

/-- Folds `_handle_pose_observation` over a sequence of observations,
collecting every emitted event. -/
def runObservations (s : AnalyzerState) : List Observation → AnalyzerState × List EventPayload
  | [] => (s, [])
  | o :: rest =>
    let r := handlePoseObservation s o
    let r2 := runObservations r.1 rest
    (r2.1, r.2 ++ r2.2)

/-- An event payload labelled `"wake"`. -/
def isWakeEvent (e : EventPayload) : Bool := e.label = some "wake"

/-- Number of wake events in an emitted batch. -/
def wakeCount (evs : List EventPayload) : ℕ := (evs.filter isWakeEvent).length

/-- Invariant of a running wake candidate: not yet awake, candidate posture
`p`, candidate timer started at `t1`. -/
def PreCross (p : String) (t1 : ℚ) (s : AnalyzerState) : Prop :=
  s.isAwake = false ∧ s.wakeCandidatePosture = some p ∧ s.wakeCandidateSince = t1

/-- Gate bound: if the last registered event was a wake, it was registered
no later than `t1`, so a wake at `t1 + wakeMinDuration` clears the
2-second event cooldown. -/
def WakeGateInv (t1 : ℚ) (s : AnalyzerState) : Prop :=
  s.lastEventLabel = some "wake" → s.lastEventTs ≤ t1

/-! ### Posture classifier (`baby-motion-detector/baby_monitor/pose.py`) -/

/-- Threshold parameters of `PoseAnalyzer.__init__` (pose.py:59-97); the
field defaults are the constructor defaults. -/
structure PoseConfig where
  standingAngle : ℚ := 35
  lyingAngle : ℚ := 65
  lyingForwardRatio : ℚ := 45/100
  standingForwardRatio : ℚ := 35/100
  standingKneeAngle : ℚ := 150
  sittingKneeMin : ℚ := 70
  sittingKneeMax : ℚ := 150
  standingLegExtensionMin : ℚ := 22/100
  sittingLegExtensionMax : ℚ := 18/100
deriving Repr, DecidableEq

/-- `PoseAnalyzer` with all constructor defaults. -/
def defaultPoseConfig : PoseConfig := {}

/-- Total of the `standing_score += 1` increments of `_classify_posture`
(pose.py:259-289); each optional feature abstains when absent. -/
def standingScore (cfg : PoseConfig) (angleDeg forwardComponent : ℚ)
    (avgKneeAngle legExtension legSpan kneeSpan : Option ℚ) : ℕ :=
  (match avgKneeAngle with
   | some k => if cfg.standingKneeAngle ≤ k then 1 else 0
   | none => 0) +
  (match legExtension with
   | some e => if cfg.standingLegExtensionMin ≤ e then 1 else 0
   | none => 0) +
  (match legSpan with
   | some v => if 22/100 ≤ v then 1 else 0
   | none => 0) +
  (match kneeSpan with
   | some v => if 12/100 ≤ v then 1 else 0
   | none => 0) +
  (if angleDeg ≤ cfg.standingAngle + 5 ∧ forwardComponent ≤ cfg.standingForwardRatio + 5/100
   then 1 else 0)

/-- Total of the `sitting_score += 1` increments of `_classify_posture`
(pose.py:259-289); the last summand is the `elif` branch of the combined
torso-angle/forward-ratio test, taken only when the standing branch fails. -/
def sittingScore (cfg : PoseConfig) (angleDeg forwardComponent : ℚ)
    (avgKneeAngle legExtension legSpan kneeSpan : Option ℚ) : ℕ :=
  (match avgKneeAngle with
   | some k => if cfg.sittingKneeMin ≤ k ∧ k ≤ cfg.sittingKneeMax then 1 else 0
   | none => 0) +
  (match legExtension with
   | some e => if e ≤ cfg.sittingLegExtensionMax then 1 else 0
   | none => 0) +
  (match legSpan with
   | some v => if v < 18/100 then 1 else 0
   | none => 0) +
  (match kneeSpan with
   | some v => if v < 10/100 then 1 else 0
   | none => 0) +
  (if ¬(angleDeg ≤ cfg.standingAngle + 5 ∧ forwardComponent ≤ cfg.standingForwardRatio + 5/100) ∧
      angleDeg ≤ cfg.lyingAngle + 8
   then 1 else 0)

/-- Embedding of `PoseAnalyzer._classify_posture` (pose.py:245-300): hard
lying gate, scored vote with a floor of 2, then the pure-angle fallback. -/
def classifyPosture (cfg : PoseConfig) (angleDeg forwardComponent : ℚ)
    (avgKneeAngle legExtension legSpan kneeSpan : Option ℚ) : String :=
  if cfg.lyingAngle + 5 ≤ angleDeg ∨ cfg.lyingForwardRatio + 8/100 ≤ forwardComponent then
    "lying"
  else
    let st := standingScore cfg angleDeg forwardComponent avgKneeAngle legExtension legSpan kneeSpan
    let si := sittingScore cfg angleDeg forwardComponent avgKneeAngle legExtension legSpan kneeSpan
    if max si 2 ≤ st then "standing"
    else if max st 2 ≤ si then "sitting"
    else if angleDeg ≤ cfg.lyingAngle + 8 then "sitting"
    else if angleDeg ≤ cfg.standingAngle + 6 then "standing"
    else "lying"

/-! ### Movement metric (`baby-motion-detector/baby_monitor/pose.py`) -/

/-- 3D world-landmark point. -/
structure Vec3 where
  x : ℚ
  y : ℚ
  z : ℚ
deriving Repr, DecidableEq

/-- `landmarks = world_landmarks.copy(); landmarks[~visibility_mask] = nan`
(pose.py:202-203): low-visibility points become missing (`none`). -/
def maskLandmarks (cur : List Vec3) (mask : List Bool) : List (Option Vec3) :=
  List.zipWith (fun p v => if v then some p else none) cur mask

/-- Point pairs valid in both frames: the current point is visible and the
stored previous point is finite (`visibility_mask & np.isfinite(prev[:, 0])`,
pose.py:208). -/
def validPairs (landmarks prev : List (Option Vec3)) : List (Vec3 × Vec3) :=
  (landmarks.zip prev).filterMap
    (fun pr => match pr with
      | (some c, some p) => some (c, p)
      | _ => none)

/-- Embedding of `PoseAnalyzer._movement_metric` (pose.py:199-215).
`dist3` stands for the per-point Euclidean displacement norm
`np.linalg.norm(landmarks[valid] - prev[valid], axis=1)`, an external
real-valued routine; every theorem below holds for all `dist3`.
Returns `((score, detected), new previous landmarks)`. -/
def movementMetric (dist3 : Vec3 → Vec3 → ℚ) (movementThreshold : ℚ)
    (prevWorldLandmarks : Option (List (Option Vec3)))
    (cur : List Vec3) (mask : List Bool) :
    (ℚ × Bool) × List (Option Vec3) :=
  let landmarks := maskLandmarks cur mask
  match prevWorldLandmarks with
  | none => ((0, false), landmarks)
  | some prev =>
    let pairs := validPairs landmarks prev
    if pairs.isEmpty then ((0, false), landmarks)
    else
      let diffs := pairs.map (fun cp => dist3 cp.1 cp.2)
      let score := diffs.sum / diffs.length
      ((score, decide (movementThreshold < score)), landmarks)

/-! ### Cry detector (`python_analyzer/baby_monitor/audio.py`) -/

/-- `CryEvent` dataclass (audio.py:13-17). -/
structure CryEvent where
  timestamp : ℚ
  energy : ℚ
  ratio_mid_band : ℚ
deriving Repr, DecidableEq

/-- `energy = float(np.mean(window ** 2))` (audio.py:58). -/
def meanSquaredEnergy (window : List ℚ) : ℚ :=
  (window.map (fun x => x ^ 2)).sum / window.length

/-- Total spectral energy `float(np.sum(psd))` of a Welch spectrum given as
(frequency, power) pairs. -/
def totalEnergy (psd : List (ℚ × ℚ)) : ℚ := (psd.map Prod.snd).sum

/-- Spectral energy inside the 400-1500 Hz band
(`band_mask = (freqs >= 400.0) & (freqs <= 1500.0)`, audio.py:72). -/
def bandEnergy (psd : List (ℚ × ℚ)) : ℚ :=
  ((psd.filter (fun fp => 400 ≤ fp.1 ∧ fp.1 ≤ 1500)).map Prod.snd).sum

/-- Embedding of `CryDetector._detect` (audio.py:57-81). `psd` is the
(frequency, power) list produced by `scipy.signal.welch` on this window,
taken as a parameter since Welch's method is an external routine; `now`
stands for the `time.time()` stamp of the emitted event. -/
def cryDetect (energyThreshold bandRatioThreshold : ℚ)
    (psd : List (ℚ × ℚ)) (now : ℚ) (window : List ℚ) : Option CryEvent :=
  let energy := meanSquaredEnergy window
  if energy < energyThreshold then none
  else
    let total := totalEnergy psd
    if total ≤ 1/100000000 then none
    else
      let ratio := bandEnergy psd / total
      if bandRatioThreshold < ratio then
        some { timestamp := now, energy := energy, ratio_mid_band := ratio }
      else none

/-- The `while` loop of `CryDetector.process_samples` (audio.py:50-54),
instrumented with the list of windows handed to `_detect`. `fuel` bounds
the number of iterations (the Python loop terminates whenever
`hop_size ≥ 1`, and every theorem below supplies enough fuel).
Returns `(windows examined, first detected event, final buffer)`. -/
def drainBuffer (detect : List ℚ → Option CryEvent) (wsize hop : ℕ) :
    ℕ → List ℚ → List (List ℚ) × Option CryEvent × List ℚ
  | 0, buf => ([], none, buf)
  | fuel + 1, buf =>
    if wsize ≤ buf.length then
      let window := buf.take wsize
      let rest := buf.drop hop
      match detect window with
      | some e => ([window], some e, rest)
      | none =>
        let r := drainBuffer detect wsize hop fuel rest
        (window :: r.1, r.2.1, r.2.2)
    else ([], none, buf)

/-- `drainBuffer` with its canonical fuel, one more than the buffer length:
enough for every iteration of the Python loop whenever `hop ≥ 1`. -/
def drainAll (detect : List ℚ → Option CryEvent) (wsize hop : ℕ)
    (buf : List ℚ) : List (List ℚ) × Option CryEvent × List ℚ :=
  drainBuffer detect wsize hop (buf.length + 1) buf

/-- Embedding of `CryDetector.process_samples` (audio.py:44-55): append the
incoming samples to the buffer, then drain whole windows. `detect` stands
for `self._detect` (that is, `cryDetect` applied to the Welch spectrum of
the window). -/
def processSamples (detect : List ℚ → Option CryEvent) (wsize hop : ℕ)
    (buffer samples : List ℚ) :
    List (List ℚ) × Option CryEvent × List ℚ :=
  drainAll detect wsize hop (buffer ++ samples)

/-- Caller-side cry cooldown of `AudioAnalyzer.process_frame`
(audio.py:137-140): state is `self._last_cry_ts`; an event survives only
when at least `cryCooldown` elapsed since the last emitted cry. -/
def cryCooldownStep (cryCooldown : ℚ) (lastCryTs : ℚ) (ev : Option CryEvent) :
    Option CryEvent × ℚ :=
  match ev with
  | some e =>
    if cryCooldown ≤ e.timestamp - lastCryTs then (some e, e.timestamp)
    else (none, lastCryTs)
  | none => (none, lastCryTs)

/-- `AudioAnalyzer.__init__` default `cry_cooldown=5.0` (audio.py:91). -/
def defaultCryCooldown : ℚ := 5

/-- State with a `"movement"` event registered at time 0, used by closed
instances below. -/
def afterMovementAt0 : AnalyzerState :=
  { initState with lastEventLabel := some "movement", lastEventTs := 0 }

/-! ## Theorems -/

/-- C1: with a non-empty label, `_register_event` rejects exactly when the
label equals the previously registered label and strictly less than the
event cooldown elapsed since that registration; on acceptance it stores
this label and timestamp and stamps the payload's extras with the
registration timestamp. -/
theorem C1_register_event_gate (s : AnalyzerState) (e : EventPayload)
    (l : String) (timestamp : ℚ) (hl : e.label = some l) (hne : l ≠ "") :
    ((registerEvent s e timestamp).1 = false ↔
      (s.lastEventLabel = some l ∧ timestamp - s.lastEventTs < eventCooldown)) ∧
    ((registerEvent s e timestamp).1 = true →
      (registerEvent s e timestamp).2.1 =
        { s with lastEventLabel := some l, lastEventTs := timestamp } ∧
      ((registerEvent s e timestamp).2.2.extras.getD emptyExtras) "event_timestamp" =
        some timestamp) := by
  by_cases hrej : s.lastEventLabel = some l ∧ timestamp - s.lastEventTs < eventCooldown
  · simp [registerEvent, hl, hne, hrej]
  · simp [registerEvent, hl, hne, hrej, setKey]

/-- Closed instance of `C1_register_event_gate` at a concrete state, event
and timestamp. -/
theorem C1_register_event_gate_witness :
    ((registerEvent afterMovementAt0 { label := some "movement" } 1).1 = false ↔
      (afterMovementAt0.lastEventLabel = some "movement" ∧
        (1 : ℚ) - afterMovementAt0.lastEventTs < eventCooldown)) ∧
    ((registerEvent afterMovementAt0 { label := some "movement" } 1).1 = true →
      (registerEvent afterMovementAt0 { label := some "movement" } 1).2.1 =
        { afterMovementAt0 with lastEventLabel := some "movement", lastEventTs := 1 } ∧
      ((registerEvent afterMovementAt0 { label := some "movement" } 1).2.2.extras.getD
          emptyExtras) "event_timestamp" = some 1) :=
  C1_register_event_gate afterMovementAt0 _ "movement" 1 rfl (by decide)

/-- C2 counterexample: registering a `"movement"` event at time 0 and then
a `"wake"` event at time 1 — well inside the 2-second cooldown — the
second event is nevertheless accepted, so events with different labels do
not suppress each other. -/
theorem C2_counterexample :
    (registerEvent initState { label := some "movement" } 0).1 = true ∧
    (registerEvent (registerEvent initState { label := some "movement" } 0).2.1
        { label := some "wake" } 1).1 = true ∧
    (1 : ℚ) - 0 < eventCooldown := by
  refine ⟨by decide, by decide, by norm_num [eventCooldown]⟩

/-- C2 (amended): the shared gate stores one global last-label/timestamp
pair, but only suppresses an event whose label equals the stored label; an
event with any other non-empty label is always accepted, regardless of the
elapsed time since the prior registration. -/
theorem C2_other_label_accepted (s : AnalyzerState) (e : EventPayload)
    (l : String) (timestamp : ℚ) (hl : e.label = some l) (hne : l ≠ "")
    (hdiff : s.lastEventLabel ≠ some l) :
    (registerEvent s e timestamp).1 = true := by
  simp [registerEvent, hl, hne, hdiff]

/-- Closed instance of `C2_other_label_accepted`: a `"wake"` event one
second after a registered `"movement"` event is accepted. -/
theorem C2_other_label_accepted_witness :
    (registerEvent afterMovementAt0 { label := some "wake" } 1).1 = true :=
  C2_other_label_accepted afterMovementAt0 _ "wake" 1 rfl (by decide) (by decide)

/-- C4: whenever the smoothed torso angle reaches `lying_angle + 5` or the
forward-lean ratio reaches `lying_forward_ratio + 0.08`, the classifier
returns `"lying"` for every value of the remaining features and every
threshold configuration. -/
theorem C4_hard_lying_gate (cfg : PoseConfig) (angleDeg forwardComponent : ℚ)
    (avgKneeAngle legExtension legSpan kneeSpan : Option ℚ)
    (h : cfg.lyingAngle + 5 ≤ angleDeg ∨
         cfg.lyingForwardRatio + 8/100 ≤ forwardComponent) :
    classifyPosture cfg angleDeg forwardComponent
      avgKneeAngle legExtension legSpan kneeSpan = "lying" := by
  simp [classifyPosture, h]

/-- Closed instance of `C4_hard_lying_gate`: default thresholds, torso
angle 75 degrees, every knee/leg feature present and standing-favourable. -/
theorem C4_hard_lying_gate_witness :
    classifyPosture defaultPoseConfig 75 0
      (some 170) (some 1) (some 1) (some 1) = "lying" :=
  C4_hard_lying_gate defaultPoseConfig 75 0 (some 170) (some 1) (some 1) (some 1)
    (Or.inl (by norm_num [defaultPoseConfig]))

/-- C5 counterexample: with default thresholds, a near-upright torso angle
of 10 degrees (forward ratio 0.2) with every optional feature absent
reaches the fallback with scores 1 and 0, yet classifies as `"sitting"`,
not `"standing"`: the fallback tests the mid-range branch first and
`10 ≤ lying_angle + 8` already holds. -/
theorem C5_counterexample :
    standingScore defaultPoseConfig 10 (1/5) none none none none = 1 ∧
    sittingScore defaultPoseConfig 10 (1/5) none none none none = 0 ∧
    classifyPosture defaultPoseConfig 10 (1/5) none none none none = "sitting" ∧
    ("sitting" : String) ≠ "standing" := by
  have hst : standingScore defaultPoseConfig 10 (1/5) none none none none = 1 := by
    norm_num [standingScore, defaultPoseConfig]
  have hsi : sittingScore defaultPoseConfig 10 (1/5) none none none none = 0 := by
    norm_num [sittingScore, defaultPoseConfig]
  refine ⟨hst, hsi, ?_, by decide⟩
  have hgate : ¬(defaultPoseConfig.lyingAngle + 5 ≤ (10 : ℚ) ∨
      defaultPoseConfig.lyingForwardRatio + 8/100 ≤ (1/5 : ℚ)) := by
    norm_num [defaultPoseConfig]
  simp only [classifyPosture, if_neg hgate, hst, hsi]
  norm_num [defaultPoseConfig]

/-- C5 (amended): when the hard lying gate does not fire and neither score
reaches the floor of 2, the classifier falls back to pure-angle
thresholds tested in this order: angle ≤ lying_angle + 8 yields
`"sitting"` (a range that includes near-upright angles whenever
`standing_angle + 6 ≤ lying_angle + 8`, as with the defaults), otherwise
angle ≤ standing_angle + 6 yields `"standing"`, otherwise `"lying"`. -/
theorem C5_fallback_order (cfg : PoseConfig) (angleDeg forwardComponent : ℚ)
    (avgKneeAngle legExtension legSpan kneeSpan : Option ℚ)
    (hgate : ¬(cfg.lyingAngle + 5 ≤ angleDeg ∨
               cfg.lyingForwardRatio + 8/100 ≤ forwardComponent))
    (hst : standingScore cfg angleDeg forwardComponent
             avgKneeAngle legExtension legSpan kneeSpan < 2)
    (hsi : sittingScore cfg angleDeg forwardComponent
             avgKneeAngle legExtension legSpan kneeSpan < 2) :
    classifyPosture cfg angleDeg forwardComponent
        avgKneeAngle legExtension legSpan kneeSpan =
      if angleDeg ≤ cfg.lyingAngle + 8 then "sitting"
      else if angleDeg ≤ cfg.standingAngle + 6 then "standing"
      else "lying" := by
  have h1 : ¬(max (sittingScore cfg angleDeg forwardComponent
      avgKneeAngle legExtension legSpan kneeSpan) 2 ≤
      standingScore cfg angleDeg forwardComponent
        avgKneeAngle legExtension legSpan kneeSpan) := by omega
  have h2 : ¬(max (standingScore cfg angleDeg forwardComponent
      avgKneeAngle legExtension legSpan kneeSpan) 2 ≤
      sittingScore cfg angleDeg forwardComponent
        avgKneeAngle legExtension legSpan kneeSpan) := by omega
  simp only [classifyPosture, if_neg hgate, if_neg h1, if_neg h2]

/-- Closed instance of `C5_fallback_order` at angle 10, forward ratio 0.2,
all optional features absent. -/
theorem C5_fallback_order_witness :
    classifyPosture defaultPoseConfig 10 (1/5) none none none none =
      if (10 : ℚ) ≤ defaultPoseConfig.lyingAngle + 8 then "sitting"
      else if (10 : ℚ) ≤ defaultPoseConfig.standingAngle + 6 then "standing"
      else "lying" :=
  C5_fallback_order defaultPoseConfig 10 (1/5) none none none none
    (by norm_num [defaultPoseConfig])
    (by norm_num [standingScore, defaultPoseConfig])
    (by norm_num [sittingScore, defaultPoseConfig])

/-- C10: when the hard lying gate does not fire and the two scores are
equal and at least 2, the classifier returns `"standing"`: the standing
branch is tested first, so ties at or above the floor resolve to
standing. -/
theorem C10_tie_resolves_to_standing (cfg : PoseConfig)
    (angleDeg forwardComponent : ℚ)
    (avgKneeAngle legExtension legSpan kneeSpan : Option ℚ)
    (hgate : ¬(cfg.lyingAngle + 5 ≤ angleDeg ∨
               cfg.lyingForwardRatio + 8/100 ≤ forwardComponent))
    (heq : standingScore cfg angleDeg forwardComponent
             avgKneeAngle legExtension legSpan kneeSpan =
           sittingScore cfg angleDeg forwardComponent
             avgKneeAngle legExtension legSpan kneeSpan)
    (h2 : 2 ≤ standingScore cfg angleDeg forwardComponent
             avgKneeAngle legExtension legSpan kneeSpan) :
    classifyPosture cfg angleDeg forwardComponent
      avgKneeAngle legExtension legSpan kneeSpan = "standing" := by
  have h1 : max (sittingScore cfg angleDeg forwardComponent
      avgKneeAngle legExtension legSpan kneeSpan) 2 ≤
      standingScore cfg angleDeg forwardComponent
        avgKneeAngle legExtension legSpan kneeSpan := by omega
  simp only [classifyPosture, if_neg hgate, if_pos h1]

/-- Closed instance of `C10_tie_resolves_to_standing`: default thresholds,
angle 30, forward 0.3, knee angle 150, leg span 0.15 give a 2-2 tie that
resolves to `"standing"`. -/
theorem C10_tie_resolves_to_standing_witness :
    classifyPosture defaultPoseConfig 30 (3/10)
      (some 150) none (some (3/20)) none = "standing" :=
  C10_tie_resolves_to_standing defaultPoseConfig 30 (3/10)
    (some 150) none (some (3/20)) none
    (by norm_num [defaultPoseConfig])
    (by norm_num [standingScore, sittingScore, defaultPoseConfig])
    (by norm_num [standingScore, defaultPoseConfig])

/-- C6: the movement metric returns score 0 and no detection — and stores
the visibility-masked current landmarks as the new baseline — whenever no
previous frame exists or no point is valid in both frames; this holds for
every displacement norm and threshold. -/
theorem C6_movement_metric_reset (dist3 : Vec3 → Vec3 → ℚ)
    (movementThreshold : ℚ) (cur : List Vec3) (mask : List Bool) :
    (movementMetric dist3 movementThreshold none cur mask =
      ((0, false), maskLandmarks cur mask)) ∧
    (∀ prev : List (Option Vec3),
      validPairs (maskLandmarks cur mask) prev = [] →
      movementMetric dist3 movementThreshold (some prev) cur mask =
        ((0, false), maskLandmarks cur mask)) := by
  constructor
  · rfl
  · intro prev hpairs
    simp [movementMetric, hpairs]

/-- Closed instance of `C6_movement_metric_reset`: one visible point, a
previous frame whose only point was invisible — no valid overlap. -/
theorem C6_movement_metric_reset_witness :
    (movementMetric (fun _ _ => 0) (2/25) none [⟨0, 0, 0⟩] [true] =
      ((0, false), maskLandmarks [⟨0, 0, 0⟩] [true])) ∧
    (∀ prev : List (Option Vec3),
      validPairs (maskLandmarks [⟨0, 0, 0⟩] [true]) prev = [] →
      movementMetric (fun _ _ => 0) (2/25) (some prev) [⟨0, 0, 0⟩] [true] =
        ((0, false), maskLandmarks [⟨0, 0, 0⟩] [true])) :=
  C6_movement_metric_reset (fun _ _ => 0) (2/25) [⟨0, 0, 0⟩] [true]

/-- C7: `_detect` emits an event exactly when the window's mean-squared
energy reaches the energy threshold, the total spectral energy exceeds
1e-8, and the 400-1500 Hz band fraction strictly exceeds the band-ratio
threshold; the emitted event carries that energy and that ratio. -/
theorem C7_cry_detect_iff (energyThreshold bandRatioThreshold : ℚ)
    (psd : List (ℚ × ℚ)) (now : ℚ) (window : List ℚ) :
    cryDetect energyThreshold bandRatioThreshold psd now window =
      if energyThreshold ≤ meanSquaredEnergy window ∧
         1/100000000 < totalEnergy psd ∧
         bandRatioThreshold < bandEnergy psd / totalEnergy psd then
        some { timestamp := now, energy := meanSquaredEnergy window,
               ratio_mid_band := bandEnergy psd / totalEnergy psd }
      else none := by
  simp only [cryDetect]
  by_cases hE : meanSquaredEnergy window < energyThreshold
  · have hc : ¬(energyThreshold ≤ meanSquaredEnergy window ∧
        1/100000000 < totalEnergy psd ∧
        bandRatioThreshold < bandEnergy psd / totalEnergy psd) :=
      fun h => absurd h.1 (not_le.mpr hE)
    rw [if_pos hE, if_neg hc]
  · rw [if_neg hE]
    by_cases hT : totalEnergy psd ≤ 1/100000000
    · have hc : ¬(energyThreshold ≤ meanSquaredEnergy window ∧
          1/100000000 < totalEnergy psd ∧
          bandRatioThreshold < bandEnergy psd / totalEnergy psd) :=
        fun h => absurd h.2.1 (not_lt.mpr hT)
      rw [if_pos hT, if_neg hc]
    · rw [if_neg hT]
      by_cases hR : bandRatioThreshold < bandEnergy psd / totalEnergy psd
      · have hc : energyThreshold ≤ meanSquaredEnergy window ∧
            1/100000000 < totalEnergy psd ∧
            bandRatioThreshold < bandEnergy psd / totalEnergy psd :=
          ⟨not_lt.mp hE, not_le.mp hT, hR⟩
        rw [if_pos hR, if_pos hc]
      · have hc : ¬(energyThreshold ≤ meanSquaredEnergy window ∧
            1/100000000 < totalEnergy psd ∧
            bandRatioThreshold < bandEnergy psd / totalEnergy psd) :=
          fun h => absurd h.2.2 hR
        rw [if_neg hR, if_neg hc]

/-- C9: with the first qualifying detection past the cooldown horizon, two
qualifying detections `T` seconds apart pass the caller-side cry cooldown
as exactly one emitted event when `T < cooldown` and exactly two when
`T ≥ cooldown`. -/
theorem C9_cry_cooldown_pair (cryCooldown lastCryTs t1 T : ℚ)
    (e1 e2 : CryEvent) (he1 : e1.timestamp = t1) (he2 : e2.timestamp = t1 + T)
    (hfirst : cryCooldown ≤ t1 - lastCryTs) :
    cryCooldownStep cryCooldown lastCryTs (some e1) = (some e1, t1) ∧
    (T < cryCooldown →
      cryCooldownStep cryCooldown t1 (some e2) = (none, t1)) ∧
    (cryCooldown ≤ T →
      cryCooldownStep cryCooldown t1 (some e2) = (some e2, t1 + T)) := by
  refine ⟨?_, ?_, ?_⟩
  · simp [cryCooldownStep, he1, hfirst]
  · intro hT
    have : ¬ cryCooldown ≤ e2.timestamp - t1 := by rw [he2]; linarith
    simp [cryCooldownStep, this]
  · intro hT
    have h : cryCooldown ≤ e2.timestamp - t1 := by rw [he2]; linarith
    simp only [cryCooldownStep]
    rw [if_pos h, he2]

/-- Closed instance of `C9_cry_cooldown_pair`: default 5-second cooldown,
detections at times 100 and 103. -/
theorem C9_cry_cooldown_pair_witness :
    cryCooldownStep defaultCryCooldown 0 (some ⟨100, 1, 1⟩) = (some ⟨100, 1, 1⟩, 100) ∧
    ((3 : ℚ) < defaultCryCooldown →
      cryCooldownStep defaultCryCooldown 100 (some ⟨103, 1, 1⟩) = (none, 100)) ∧
    (defaultCryCooldown ≤ (3 : ℚ) →
      cryCooldownStep defaultCryCooldown 100 (some ⟨103, 1, 1⟩) = (some ⟨103, 1, 1⟩, 100 + 3)) :=
  C9_cry_cooldown_pair defaultCryCooldown 0 100 3 ⟨100, 1, 1⟩ ⟨103, 1, 1⟩
    rfl (by norm_num) (by norm_num [defaultCryCooldown])

/-- Any two sufficient fuels give `drainBuffer` the same result: the loop
consumes at least one buffer element per iteration once `wsize ≥ 1` and
`hop ≥ 1`. -/
theorem drainBuffer_fuel_irrel (detect : List ℚ → Option CryEvent)
    (wsize hop : ℕ) (hw : 1 ≤ wsize) (hh : 1 ≤ hop) :
    ∀ fuel₁ fuel₂ : ℕ, ∀ buf : List ℚ, buf.length < fuel₁ → buf.length < fuel₂ →
      drainBuffer detect wsize hop fuel₁ buf = drainBuffer detect wsize hop fuel₂ buf := by
  intro fuel₁
  induction fuel₁ with
  | zero => intro fuel₂ buf h1 h2; omega
  | succ f ih =>
    intro fuel₂ buf h1 h2
    cases fuel₂ with
    | zero => omega
    | succ g =>
      by_cases hcond : wsize ≤ buf.length
      · have hdrop : (buf.drop hop).length = buf.length - hop := by
          simp [List.length_drop]
        have hrec : drainBuffer detect wsize hop f (buf.drop hop) =
            drainBuffer detect wsize hop g (buf.drop hop) := by
          apply ih
          · omega
          · omega
        simp only [drainBuffer, if_pos hcond]
        cases hd : detect (buf.take wsize) with
        | some e => rfl
        | none => simp only [hrec]
      · simp only [drainBuffer, if_neg hcond]

/-- A buffer shorter than one window is not drained at all. -/
theorem drainAll_underrun (detect : List ℚ → Option CryEvent)
    (wsize hop : ℕ) (buf : List ℚ) (hlt : buf.length < wsize) :
    drainAll detect wsize hop buf = ([], none, buf) := by
  unfold drainAll
  simp only [drainBuffer, if_neg (Nat.not_le.mpr hlt)]

/-- One non-detecting iteration of the drain loop: the front window is
examined, the buffer advances by `hop`, and draining continues. -/
theorem drainAll_step_none (detect : List ℚ → Option CryEvent)
    (wsize hop : ℕ) (hw : 1 ≤ wsize) (hh : 1 ≤ hop) (buf : List ℚ)
    (hcond : wsize ≤ buf.length) (hd : detect (buf.take wsize) = none) :
    drainAll detect wsize hop buf =
      ((buf.take wsize) :: (drainAll detect wsize hop (buf.drop hop)).1,
        (drainAll detect wsize hop (buf.drop hop)).2) := by
  have hdrop : (buf.drop hop).length = buf.length - hop := by
    simp [List.length_drop]
  have h1 : drainBuffer detect wsize hop buf.length (buf.drop hop) =
      drainBuffer detect wsize hop ((buf.drop hop).length + 1) (buf.drop hop) :=
    drainBuffer_fuel_irrel detect wsize hop hw hh _ _ _ (by omega) (by omega)
  unfold drainAll
  simp only [drainBuffer, if_pos hcond, hd, h1]

/-- One detecting iteration of the drain loop: the front window qualifies,
its event is returned at once, and the buffer has already advanced by
`hop`. -/
theorem drainAll_step_some (detect : List ℚ → Option CryEvent)
    (wsize hop : ℕ) (buf : List ℚ) (e : CryEvent)
    (hcond : wsize ≤ buf.length) (hd : detect (buf.take wsize) = some e) :
    drainAll detect wsize hop buf = ([buf.take wsize], some e, buf.drop hop) := by
  unfold drainAll
  simp only [drainBuffer, if_pos hcond, hd]

/-- C8: feeding exactly `window_size + 3 * hop_size` samples into an empty
buffer processes exactly the four overlapping front windows — the buffer
advancing by exactly `hop_size` each time — and ends in underrun when no
window qualifies; when window `k` is the first to qualify, only that
window's event is returned, exactly windows `0..k` are examined, and the
buffer keeps the later windows' samples for the next call. -/
theorem C8_audio_buffer_drain (detect : List ℚ → Option CryEvent)
    (wsize hop : ℕ) (samples : List ℚ) (hw : 1 ≤ wsize) (hh : 1 ≤ hop)
    (hlen : samples.length = wsize + 3 * hop) :
    ((∀ i, i < 4 → detect ((samples.drop (i * hop)).take wsize) = none) →
      processSamples detect wsize hop [] samples =
        ([(samples.drop (0 * hop)).take wsize, (samples.drop (1 * hop)).take wsize,
          (samples.drop (2 * hop)).take wsize, (samples.drop (3 * hop)).take wsize],
          none, samples.drop (4 * hop)) ∧
      (samples.drop (4 * hop)).length < wsize) ∧
    (∀ k : ℕ, ∀ e : CryEvent, k < 4 →
      (∀ j, j < k → detect ((samples.drop (j * hop)).take wsize) = none) →
      detect ((samples.drop (k * hop)).take wsize) = some e →
      processSamples detect wsize hop [] samples =
        ((List.range (k + 1)).map (fun i => (samples.drop (i * hop)).take wsize),
          some e, samples.drop ((k + 1) * hop))) := by
  have h00 : samples.drop (0 * hop) = samples := by simp
  have l0 : (samples.drop (0 * hop)).length = wsize + 3 * hop := by
    simp only [List.length_drop, hlen]; omega
  have l1 : (samples.drop (1 * hop)).length = wsize + 2 * hop := by
    simp only [List.length_drop, hlen]; omega
  have l2 : (samples.drop (2 * hop)).length = wsize + 1 * hop := by
    simp only [List.length_drop, hlen]; omega
  have l3 : (samples.drop (3 * hop)).length = wsize := by
    simp only [List.length_drop, hlen]; omega
  have hdd0 : (samples.drop (0 * hop)).drop hop = samples.drop (1 * hop) := by
    rw [List.drop_drop]; congr 1; ring
  have hdd1 : (samples.drop (1 * hop)).drop hop = samples.drop (2 * hop) := by
    rw [List.drop_drop]; congr 1; ring
  have hdd2 : (samples.drop (2 * hop)).drop hop = samples.drop (3 * hop) := by
    rw [List.drop_drop]; congr 1; ring
  have hdd3 : (samples.drop (3 * hop)).drop hop = samples.drop (4 * hop) := by
    rw [List.drop_drop]; congr 1; ring
  constructor
  · intro hnone
    have st0 := drainAll_step_none detect wsize hop hw hh (samples.drop (0 * hop))
      (by omega) (hnone 0 (by omega))
    have st1 := drainAll_step_none detect wsize hop hw hh (samples.drop (1 * hop))
      (by omega) (hnone 1 (by omega))
    have st2 := drainAll_step_none detect wsize hop hw hh (samples.drop (2 * hop))
      (by omega) (hnone 2 (by omega))
    have st3 := drainAll_step_none detect wsize hop hw hh (samples.drop (3 * hop))
      (by omega) (hnone 3 (by omega))
    rw [hdd0] at st0
    rw [hdd1] at st1
    rw [hdd2] at st2
    rw [hdd3] at st3
    have st4 : drainAll detect wsize hop (samples.drop (4 * hop)) =
        ([], none, samples.drop (4 * hop)) :=
      drainAll_underrun detect wsize hop _ (by simp only [List.length_drop, hlen]; omega)
    constructor
    · show drainAll detect wsize hop ([] ++ samples) = _
      rw [List.nil_append, ← h00, st0]
      simp only [st1, st2, st3, st4, h00]
    · simp only [List.length_drop, hlen]; omega
  · intro k e hk hmin hsome
    interval_cases k
    · have sk := drainAll_step_some detect wsize hop (samples.drop (0 * hop)) e
        (by omega) hsome
      rw [hdd0] at sk
      show drainAll detect wsize hop ([] ++ samples) = _
      rw [List.nil_append, ← h00, sk]
      simp [List.range_succ, h00]
    · have st0 := drainAll_step_none detect wsize hop hw hh (samples.drop (0 * hop))
        (by omega) (hmin 0 (by omega))
      rw [hdd0] at st0
      have sk := drainAll_step_some detect wsize hop (samples.drop (1 * hop)) e
        (by omega) hsome
      rw [hdd1] at sk
      show drainAll detect wsize hop ([] ++ samples) = _
      rw [List.nil_append, ← h00, st0]
      simp only [sk, h00]
      simp [List.range_succ, h00]
    · have st0 := drainAll_step_none detect wsize hop hw hh (samples.drop (0 * hop))
        (by omega) (hmin 0 (by omega))
      rw [hdd0] at st0
      have st1 := drainAll_step_none detect wsize hop hw hh (samples.drop (1 * hop))
        (by omega) (hmin 1 (by omega))
      rw [hdd1] at st1
      have sk := drainAll_step_some detect wsize hop (samples.drop (2 * hop)) e
        (by omega) hsome
      rw [hdd2] at sk
      show drainAll detect wsize hop ([] ++ samples) = _
      rw [List.nil_append, ← h00, st0]
      simp only [st1, sk, h00]
      simp [List.range_succ, h00]
    · have st0 := drainAll_step_none detect wsize hop hw hh (samples.drop (0 * hop))
        (by omega) (hmin 0 (by omega))
      rw [hdd0] at st0
      have st1 := drainAll_step_none detect wsize hop hw hh (samples.drop (1 * hop))
        (by omega) (hmin 1 (by omega))
      rw [hdd1] at st1
      have st2 := drainAll_step_none detect wsize hop hw hh (samples.drop (2 * hop))
        (by omega) (hmin 2 (by omega))
      rw [hdd2] at st2
      have sk := drainAll_step_some detect wsize hop (samples.drop (3 * hop)) e
        (by omega) hsome
      rw [hdd3] at sk
      show drainAll detect wsize hop ([] ++ samples) = _
      rw [List.nil_append, ← h00, st0]
      simp only [st1, st2, sk, h00]
      simp [List.range_succ, h00]

/-- Closed instance of `C8_audio_buffer_drain`: window size 2, hop 1, five
samples, a detector that never fires. -/
theorem C8_audio_buffer_drain_witness :
    ((∀ i, i < 4 → (none : Option CryEvent) = none) →
      processSamples (fun _ => none) 2 1 [] [4, 5, 6, 7, 8] =
        ([((([4, 5, 6, 7, 8] : List ℚ).drop (0 * 1)).take 2),
          ((([4, 5, 6, 7, 8] : List ℚ).drop (1 * 1)).take 2),
          ((([4, 5, 6, 7, 8] : List ℚ).drop (2 * 1)).take 2),
          ((([4, 5, 6, 7, 8] : List ℚ).drop (3 * 1)).take 2)],
          none, (([4, 5, 6, 7, 8] : List ℚ).drop (4 * 1))) ∧
      ((([4, 5, 6, 7, 8] : List ℚ).drop (4 * 1)).length < 2)) ∧
    (∀ k : ℕ, ∀ e : CryEvent, k < 4 →
      (∀ j, j < k → (none : Option CryEvent) = none) →
      (none : Option CryEvent) = some e →
      processSamples (fun _ => none) 2 1 [] [4, 5, 6, 7, 8] =
        ((List.range (k + 1)).map
            (fun i => (([4, 5, 6, 7, 8] : List ℚ).drop (i * 1)).take 2),
          some e, ([4, 5, 6, 7, 8] : List ℚ).drop ((k + 1) * 1))) :=
  C8_audio_buffer_drain (fun _ => none) 2 1 [4, 5, 6, 7, 8]
    (by omega) (by omega) (by simp)

/-- `_register_event` never touches the wake/movement bookkeeping fields. -/
theorem registerEvent_other_fields (s : AnalyzerState) (e : EventPayload) (ts : ℚ) :
    (registerEvent s e ts).2.1.isAwake = s.isAwake ∧
    (registerEvent s e ts).2.1.wakeCandidatePosture = s.wakeCandidatePosture ∧
    (registerEvent s e ts).2.1.wakeCandidateSince = s.wakeCandidateSince ∧
    (registerEvent s e ts).2.1.lastMovementEventTs = s.lastMovementEventTs := by
  cases hl : e.label with
  | none => simp [registerEvent, hl]
  | some l =>
    by_cases h0 : l = ""
    · simp [registerEvent, hl, h0]
    · by_cases hrej : s.lastEventLabel = some l ∧ ts - s.lastEventTs < eventCooldown
      · simp [registerEvent, hl, h0, hrej]
      · simp [registerEvent, hl, h0, hrej]

/-- `_register_event` leaves the last-event pair unchanged or sets it to
this event's label and timestamp. -/
theorem registerEvent_last (s : AnalyzerState) (e : EventPayload) (ts : ℚ) :
    ((registerEvent s e ts).2.1.lastEventLabel = s.lastEventLabel ∧
     (registerEvent s e ts).2.1.lastEventTs = s.lastEventTs) ∨
    ((registerEvent s e ts).2.1.lastEventLabel = e.label ∧
     (registerEvent s e ts).2.1.lastEventTs = ts) := by
  cases hl : e.label with
  | none => left; simp [registerEvent, hl]
  | some l =>
    by_cases h0 : l = ""
    · left; simp [registerEvent, hl, h0]
    · by_cases hrej : s.lastEventLabel = some l ∧ ts - s.lastEventTs < eventCooldown
      · left; simp [registerEvent, hl, h0, hrej]
      · right; simp [registerEvent, hl, h0, hrej]

/-- `_register_event` does not change the payload's label. -/
theorem registerEvent_payload_label (s : AnalyzerState) (e : EventPayload) (ts : ℚ) :
    (registerEvent s e ts).2.2.label = e.label := by
  cases hl : e.label with
  | none => simp [registerEvent, hl]
  | some l =>
    by_cases h0 : l = ""
    · simp [registerEvent, hl, h0]
    · by_cases hrej : s.lastEventLabel = some l ∧ ts - s.lastEventTs < eventCooldown
      · simp [registerEvent, hl, h0, hrej]
      · simp [registerEvent, hl, h0, hrej]

/-- The movement section never touches the wake bookkeeping fields. -/
theorem movementStep_wake_fields (s : AnalyzerState) (o : Observation) :
    (movementStep s o).1.isAwake = s.isAwake ∧
    (movementStep s o).1.wakeCandidatePosture = s.wakeCandidatePosture ∧
    (movementStep s o).1.wakeCandidateSince = s.wakeCandidateSince := by
  unfold movementStep
  by_cases hc : o.movementDetected ∧ movementCooldown ≤ o.time - s.lastMovementEventTs
  · rw [if_pos hc]
    have hreg := registerEvent_other_fields s
      { label := some "movement",
        extras := some (setKey o.extras "movement_score" o.movementScore) } o.time
    rcases hacc : registerEvent s
      { label := some "movement",
        extras := some (setKey o.extras "movement_score" o.movementScore) } o.time
      with ⟨b, s1, p1⟩
    rw [hacc] at hreg
    cases b <;> simp_all
  · rw [if_neg hc]
    exact ⟨rfl, rfl, rfl⟩

/-- The movement section leaves the last-event pair unchanged or labels it
`"movement"`. -/
theorem movementStep_last (s : AnalyzerState) (o : Observation) :
    ((movementStep s o).1.lastEventLabel = s.lastEventLabel ∧
     (movementStep s o).1.lastEventTs = s.lastEventTs) ∨
    (movementStep s o).1.lastEventLabel = some "movement" := by
  unfold movementStep
  by_cases hc : o.movementDetected ∧ movementCooldown ≤ o.time - s.lastMovementEventTs
  · rw [if_pos hc]
    have hreg := registerEvent_last s
      { label := some "movement",
        extras := some (setKey o.extras "movement_score" o.movementScore) } o.time
    rcases hacc : registerEvent s
      { label := some "movement",
        extras := some (setKey o.extras "movement_score" o.movementScore) } o.time
      with ⟨b, s1, p1⟩
    rw [hacc] at hreg
    cases b <;> simp_all <;> tauto
  · rw [if_neg hc]
    left; exact ⟨rfl, rfl⟩

/-- Every event emitted by the movement section is labelled `"movement"`,
so none of them is a wake event. -/
theorem movementStep_wakeCount (s : AnalyzerState) (o : Observation) :
    wakeCount (movementStep s o).2 = 0 := by
  unfold movementStep
  by_cases hc : o.movementDetected ∧ movementCooldown ≤ o.time - s.lastMovementEventTs
  · rw [if_pos hc]
    have hreg := registerEvent_payload_label s
      { label := some "movement",
        extras := some (setKey o.extras "movement_score" o.movementScore) } o.time
    rcases hacc : registerEvent s
      { label := some "movement",
        extras := some (setKey o.extras "movement_score" o.movementScore) } o.time
      with ⟨b, s1, p1⟩
    rw [hacc] at hreg
    cases b
    · simp [hacc, wakeCount]
    · simp only at hreg
      simp [hacc, wakeCount, isWakeEvent, hreg]
  · rw [if_neg hc]
    simp [wakeCount]

/-- Wake section, non-upright posture: full reset (analyzer.py:399-402). -/
theorem wakeStep_reset (s : AnalyzerState) (o : Observation)
    (hp : ¬(o.posture = "sitting" ∨ o.posture = "standing")) :
    wakeStep s o =
      ({ s with wakeCandidatePosture := none, wakeCandidateSince := 0,
                isAwake := false }, []) := by
  unfold wakeStep
  rw [if_neg hp]

/-- Wake section, upright posture while already awake: only the stale
candidate marker is cleared (analyzer.py:367-368). -/
theorem wakeStep_awake (s : AnalyzerState) (o : Observation)
    (hp : o.posture = "sitting" ∨ o.posture = "standing")
    (ha : s.isAwake = true) :
    wakeStep s o = ({ s with wakeCandidatePosture := none }, []) := by
  unfold wakeStep
  rw [if_pos hp]
  simp [ha]

/-- Wake section, upright posture, not awake, candidate mismatch: a new
candidate timer starts at this observation (analyzer.py:370-372). -/
theorem wakeStep_new_candidate (s : AnalyzerState) (o : Observation)
    (hp : o.posture = "sitting" ∨ o.posture = "standing")
    (ha : s.isAwake = false)
    (hc : s.wakeCandidatePosture ≠ some o.posture) :
    wakeStep s o =
      ({ s with wakeCandidatePosture := some o.posture,
                wakeCandidateSince := o.time }, []) := by
  unfold wakeStep
  rw [if_pos hp]
  simp [ha, hc]

/-- Wake section, matching candidate below the minimum duration: nothing
changes and nothing is emitted. -/
theorem wakeStep_waiting (s : AnalyzerState) (o : Observation)
    (hp : o.posture = "sitting" ∨ o.posture = "standing")
    (ha : s.isAwake = false)
    (hc : s.wakeCandidatePosture = some o.posture)
    (ht : o.time - s.wakeCandidateSince < wakeMinDuration) :
    wakeStep s o = (s, []) := by
  unfold wakeStep
  rw [if_pos hp]
  simp [ha, hc, not_le.mpr ht]

/-- Wake section, matching candidate at or past the minimum duration with
the shared gate clear: exactly one wake event is emitted, the awake flag
is set and the candidate cleared (analyzer.py:373-398). -/
theorem wakeStep_cross (s : AnalyzerState) (o : Observation)
    (hp : o.posture = "sitting" ∨ o.posture = "standing")
    (ha : s.isAwake = false)
    (hc : s.wakeCandidatePosture = some o.posture)
    (ht : wakeMinDuration ≤ o.time - s.wakeCandidateSince)
    (hgate : ¬(s.lastEventLabel = some "wake" ∧
               o.time - s.lastEventTs < eventCooldown)) :
    (wakeStep s o).1 =
      { s with lastEventLabel := some "wake", lastEventTs := o.time,
               isAwake := true, wakeCandidatePosture := none } ∧
    wakeCount (wakeStep s o).2 = 1 := by
  unfold wakeStep
  rw [if_pos hp]
  simp only [ha, hc, Bool.false_eq_true, if_false, ne_eq, not_true_eq_false,
    if_pos ht]
  simp only [registerEvent]
  rw [if_neg (by simp)]
  rw [if_neg hgate]
  constructor
  · rfl
  · simp [wakeCount, isWakeEvent]

/-- Concatenating event batches adds their wake counts. -/
theorem wakeCount_append (a b : List EventPayload) :
    wakeCount (a ++ b) = wakeCount a + wakeCount b := by
  simp [wakeCount, List.filter_append]

/-- A non-upright observation clears the wake candidate and the awake flag
and emits no wake event. -/
theorem handle_reset (s : AnalyzerState) (o : Observation)
    (hp : ¬(o.posture = "sitting" ∨ o.posture = "standing")) :
    (handlePoseObservation s o).1.wakeCandidatePosture = none ∧
    (handlePoseObservation s o).1.isAwake = false ∧
    wakeCount (handlePoseObservation s o).2 = 0 := by
  simp only [handlePoseObservation]
  rw [wakeStep_reset (movementStep s o).1 o hp]
  refine ⟨rfl, rfl, ?_⟩
  simpa using movementStep_wakeCount s o

/-- An upright observation while not awake with a mismatched candidate
starts a fresh candidate at this observation's posture and time, emits no
wake event, and preserves the wake-gate bound. -/
theorem handle_newcand (s : AnalyzerState) (o : Observation)
    (hp : o.posture = "sitting" ∨ o.posture = "standing")
    (ha : s.isAwake = false)
    (hc : s.wakeCandidatePosture ≠ some o.posture) :
    PreCross o.posture o.time (handlePoseObservation s o).1 ∧
    wakeCount (handlePoseObservation s o).2 = 0 ∧
    (∀ t1 : ℚ, WakeGateInv t1 s → WakeGateInv t1 (handlePoseObservation s o).1) := by
  obtain ⟨hf1, hf2, hf3⟩ := movementStep_wake_fields s o
  simp only [handlePoseObservation]
  rw [wakeStep_new_candidate (movementStep s o).1 o hp (by rw [hf1]; exact ha)
    (by rw [hf2]; exact hc)]
  refine ⟨⟨hf1.trans ha, rfl, rfl⟩, ?_, ?_⟩
  · simpa using movementStep_wakeCount s o
  · intro t1 hG hlab
    simp only at hlab
    rcases movementStep_last s o with ⟨h1, h2⟩ | h1
    · rw [h1] at hlab
      simpa [h2] using hG hlab
    · rw [h1] at hlab
      simp at hlab

/-- An upright observation matching the candidate but below the minimum
duration leaves the wake state untouched and emits no wake event. -/
theorem handle_waiting (s : AnalyzerState) (o : Observation) (p : String)
    (t1 : ℚ) (hp : p = "sitting" ∨ p = "standing") (hpost : o.posture = p)
    (hP : PreCross p t1 s) (ht : o.time - t1 < wakeMinDuration) :
    PreCross p t1 (handlePoseObservation s o).1 ∧
    wakeCount (handlePoseObservation s o).2 = 0 ∧
    (WakeGateInv t1 s → WakeGateInv t1 (handlePoseObservation s o).1) := by
  obtain ⟨hP1, hP2, hP3⟩ := hP
  obtain ⟨hf1, hf2, hf3⟩ := movementStep_wake_fields s o
  have hp' : o.posture = "sitting" ∨ o.posture = "standing" := by
    rw [hpost]; exact hp
  simp only [handlePoseObservation]
  rw [wakeStep_waiting (movementStep s o).1 o hp' (by rw [hf1]; exact hP1)
    (by rw [hf2, hP2, hpost]) (by rw [hf3, hP3]; exact ht)]
  refine ⟨⟨hf1.trans hP1, hf2.trans hP2, hf3.trans hP3⟩, ?_, ?_⟩
  · simpa using movementStep_wakeCount s o
  · intro hG hlab
    simp only at hlab
    rcases movementStep_last s o with ⟨h1, h2⟩ | h1
    · rw [h1] at hlab
      simpa [h2] using hG hlab
    · rw [h1] at hlab
      simp at hlab

/-- An upright observation matching the candidate at or past the minimum
duration, with the wake-gate bound available: exactly one wake event is
emitted and the awake flag is set. -/
theorem handle_cross (s : AnalyzerState) (o : Observation) (p : String)
    (t1 : ℚ) (hp : p = "sitting" ∨ p = "standing") (hpost : o.posture = p)
    (hP : PreCross p t1 s) (ht : wakeMinDuration ≤ o.time - t1)
    (hG : WakeGateInv t1 s) :
    (handlePoseObservation s o).1.isAwake = true ∧
    wakeCount (handlePoseObservation s o).2 = 1 := by
  obtain ⟨hP1, hP2, hP3⟩ := hP
  obtain ⟨hf1, hf2, hf3⟩ := movementStep_wake_fields s o
  have hp' : o.posture = "sitting" ∨ o.posture = "standing" := by
    rw [hpost]; exact hp
  have hgate : ¬((movementStep s o).1.lastEventLabel = some "wake" ∧
      o.time - (movementStep s o).1.lastEventTs < eventCooldown) := by
    rintro ⟨hlab, hts⟩
    rcases movementStep_last s o with ⟨h1, h2⟩ | h1
    · rw [h1] at hlab
      have hle : s.lastEventTs ≤ t1 := hG hlab
      rw [h2] at hts
      have h23 : eventCooldown ≤ wakeMinDuration := by
        norm_num [eventCooldown, wakeMinDuration]
      linarith
    · rw [h1] at hlab
      simp at hlab
  have hcross := wakeStep_cross (movementStep s o).1 o hp'
    (by rw [hf1]; exact hP1) (by rw [hf2, hP2, hpost])
    (by rw [hf3, hP3]; exact ht) hgate
  simp only [handlePoseObservation]
  refine ⟨?_, ?_⟩
  · simp [hcross.1]
  · rw [wakeCount_append, movementStep_wakeCount, hcross.2]

/-- Running on an upright observation while already awake keeps the awake
flag and emits no wake event. -/
theorem handle_awake (s : AnalyzerState) (o : Observation)
    (hp : o.posture = "sitting" ∨ o.posture = "standing")
    (ha : s.isAwake = true) :
    (handlePoseObservation s o).1.isAwake = true ∧
    wakeCount (handlePoseObservation s o).2 = 0 := by
  obtain ⟨hf1, hf2, hf3⟩ := movementStep_wake_fields s o
  simp only [handlePoseObservation]
  rw [wakeStep_awake (movementStep s o).1 o hp (hf1.trans ha)]
  exact ⟨hf1.trans ha, by simpa using movementStep_wakeCount s o⟩

/-- A run over a waiting window — upright posture `p`, all observations
strictly inside the minimum duration — keeps the candidate invariant,
emits no wake event and preserves the wake-gate bound. -/
theorem run_precross (p : String) (t1 : ℚ)
    (hp : p = "sitting" ∨ p = "standing") :
    ∀ (l : List Observation) (s : AnalyzerState), PreCross p t1 s →
      (∀ o ∈ l, o.posture = p ∧ o.time - t1 < wakeMinDuration) →
      PreCross p t1 (runObservations s l).1 ∧
      wakeCount (runObservations s l).2 = 0 ∧
      (WakeGateInv t1 s → WakeGateInv t1 (runObservations s l).1) := by
  intro l
  induction l with
  | nil =>
    intro s hP hl
    exact ⟨hP, rfl, fun h => h⟩
  | cons o rest ih =>
    intro s hP hl
    have ho := hl o (by simp)
    have hstep := handle_waiting s o p t1 hp ho.1 hP ho.2
    have hrest := ih (handlePoseObservation s o).1 hstep.1
      (fun o' h' => hl o' (by simp [h']))
    refine ⟨hrest.1, ?_, ?_⟩
    · simp only [runObservations, wakeCount_append, hstep.2.1, hrest.2.1]
    · intro hG
      exact hrest.2.2 (hstep.2.2 hG)

/-- A run over upright observations while awake keeps the awake flag and
emits no wake event. -/
theorem run_awake (p : String) (hp : p = "sitting" ∨ p = "standing") :
    ∀ (l : List Observation) (s : AnalyzerState), s.isAwake = true →
      (∀ o ∈ l, o.posture = p) →
      (runObservations s l).1.isAwake = true ∧
      wakeCount (runObservations s l).2 = 0 := by
  intro l
  induction l with
  | nil =>
    intro s ha hl
    exact ⟨ha, rfl⟩
  | cons o rest ih =>
    intro s ha hl
    have hpo : o.posture = "sitting" ∨ o.posture = "standing" := by
      rw [hl o (by simp)]; exact hp
    have hstep := handle_awake s o hpo ha
    have hrest := ih (handlePoseObservation s o).1 hstep.1
      (fun o' h' => hl o' (by simp [h']))
    refine ⟨hrest.1, ?_⟩
    simp only [runObservations, wakeCount_append, hstep.2, hrest.2]

/-- Splitting a run at a list boundary. -/
theorem runObservations_append (s : AnalyzerState) (l1 l2 : List Observation) :
    runObservations s (l1 ++ l2) =
      ((runObservations (runObservations s l1).1 l2).1,
        (runObservations s l1).2 ++ (runObservations (runObservations s l1).1 l2).2) := by
  induction l1 generalizing s with
  | nil => simp [runObservations]
  | cons o rest ih =>
    simp only [List.cons_append, runObservations, List.append_eq, ih,
      List.append_assoc]

/-- C3: the wake arbitration machine. Any non-upright observation clears
the wake candidate and the awake flag and emits no wake event. A single
upright posture held for strictly less than the minimum duration and then
broken by a non-upright posture never emits a wake event. A single upright
posture held up to an observation at least the minimum duration after the
candidate started emits exactly one wake event, exactly at that crossing
observation, and emits no further wake event while the awake flag holds. -/
theorem C3_wake_state_machine :
    (∀ (s : AnalyzerState) (o : Observation),
      ¬(o.posture = "sitting" ∨ o.posture = "standing") →
      (handlePoseObservation s o).1.wakeCandidatePosture = none ∧
      (handlePoseObservation s o).1.isAwake = false ∧
      wakeCount (handlePoseObservation s o).2 = 0) ∧
    (∀ (p : String) (s0 : AnalyzerState) (o1 oq : Observation)
        (l : List Observation),
      (p = "sitting" ∨ p = "standing") →
      s0.isAwake = false → s0.wakeCandidatePosture ≠ some p →
      o1.posture = p →
      (∀ o ∈ l, o.posture = p ∧ o.time - o1.time < wakeMinDuration) →
      ¬(oq.posture = "sitting" ∨ oq.posture = "standing") →
      wakeCount (runObservations s0 (o1 :: (l ++ [oq]))).2 = 0) ∧
    (∀ (p : String) (s0 : AnalyzerState) (o1 ok : Observation)
        (pre post : List Observation),
      (p = "sitting" ∨ p = "standing") →
      s0.isAwake = false → s0.wakeCandidatePosture ≠ some p →
      WakeGateInv o1.time s0 →
      o1.posture = p →
      (∀ o ∈ pre, o.posture = p ∧ o.time - o1.time < wakeMinDuration) →
      ok.posture = p → wakeMinDuration ≤ ok.time - o1.time →
      (∀ o ∈ post, o.posture = p) →
      wakeCount (runObservations s0 (o1 :: pre)).2 = 0 ∧
      wakeCount (runObservations s0 (o1 :: (pre ++ [ok]))).2 = 1 ∧
      wakeCount (runObservations s0 (o1 :: (pre ++ ok :: post))).2 = 1) := by
  refine ⟨fun s o hq => handle_reset s o hq, ?_, ?_⟩
  · intro p s0 o1 oq l hp ha hc hpost hl hq
    have hpo1 : o1.posture = "sitting" ∨ o1.posture = "standing" := by
      rw [hpost]; exact hp
    have h1 := handle_newcand s0 o1 hpo1 ha (by rw [hpost]; exact hc)
    have hP1 : PreCross p o1.time (handlePoseObservation s0 o1).1 := by
      rw [← hpost]; exact h1.1
    have hrun := run_precross p o1.time hp l (handlePoseObservation s0 o1).1 hP1 hl
    have hreset := handle_reset
      (runObservations (handlePoseObservation s0 o1).1 l).1 oq hq
    simp only [runObservations]
    rw [wakeCount_append, h1.2.1,
      runObservations_append (handlePoseObservation s0 o1).1 l [oq]]
    simp only [runObservations, List.append_nil]
    rw [wakeCount_append, hrun.2.1, hreset.2.2]
  · intro p s0 o1 ok pre post hp ha hc hG hpost hpre hok htime hposts
    have hpo1 : o1.posture = "sitting" ∨ o1.posture = "standing" := by
      rw [hpost]; exact hp
    have h1 := handle_newcand s0 o1 hpo1 ha (by rw [hpost]; exact hc)
    have hP1 : PreCross p o1.time (handlePoseObservation s0 o1).1 := by
      rw [← hpost]; exact h1.1
    have hG1 : WakeGateInv o1.time (handlePoseObservation s0 o1).1 :=
      h1.2.2 o1.time hG
    have hrun := run_precross p o1.time hp pre
      (handlePoseObservation s0 o1).1 hP1 hpre
    have hcross := handle_cross
      (runObservations (handlePoseObservation s0 o1).1 pre).1 ok p o1.time hp
      hok hrun.1 htime (hrun.2.2 hG1)
    have hawake := run_awake p hp post
      (handlePoseObservation
        (runObservations (handlePoseObservation s0 o1).1 pre).1 ok).1 hcross.1
      hposts
    refine ⟨?_, ?_, ?_⟩
    · simp only [runObservations]
      rw [wakeCount_append, h1.2.1, hrun.2.1]
    · simp only [runObservations]
      rw [wakeCount_append, h1.2.1,
        runObservations_append (handlePoseObservation s0 o1).1 pre [ok]]
      simp only [runObservations, List.append_nil]
      rw [wakeCount_append, hrun.2.1, hcross.2]
    · simp only [runObservations]
      rw [wakeCount_append, h1.2.1,
        runObservations_append (handlePoseObservation s0 o1).1 pre (ok :: post)]
      simp only [runObservations]
      rw [wakeCount_append, hrun.2.1, wakeCount_append, hcross.2, hawake.2]

/-- Closed instance of `C3_wake_state_machine`: a lying observation resets
a fresh state; standing at times 0 and 1 then lying at 2 emits no wake;
standing at times 0, 1, 4 and 5 emits exactly one wake, at time 4. -/
theorem C3_wake_state_machine_witness :
    ((handlePoseObservation initState (obsAt "lying" 0)).1.wakeCandidatePosture = none ∧
     (handlePoseObservation initState (obsAt "lying" 0)).1.isAwake = false ∧
     wakeCount (handlePoseObservation initState (obsAt "lying" 0)).2 = 0) ∧
    wakeCount (runObservations initState
      (obsAt "standing" 0 :: ([obsAt "standing" 1] ++ [obsAt "lying" 2]))).2 = 0 ∧
    (wakeCount (runObservations initState
        (obsAt "standing" 0 :: [obsAt "standing" 1])).2 = 0 ∧
     wakeCount (runObservations initState
        (obsAt "standing" 0 :: ([obsAt "standing" 1] ++ [obsAt "standing" 4]))).2 = 1 ∧
     wakeCount (runObservations initState
        (obsAt "standing" 0 :: ([obsAt "standing" 1] ++
          obsAt "standing" 4 :: [obsAt "standing" 5]))).2 = 1) :=
  ⟨C3_wake_state_machine.1 initState (obsAt "lying" 0) (by decide),
   C3_wake_state_machine.2.1 "standing" initState (obsAt "standing" 0)
     (obsAt "lying" 2) [obsAt "standing" 1] (Or.inr rfl) rfl (by decide) rfl
     (by intro o ho
         simp only [List.mem_singleton] at ho
         subst ho
         exact ⟨rfl, by norm_num [obsAt, wakeMinDuration]⟩)
     (by decide),
   C3_wake_state_machine.2.2 "standing" initState (obsAt "standing" 0)
     (obsAt "standing" 4) [obsAt "standing" 1] [obsAt "standing" 5]
     (Or.inr rfl) rfl (by decide) (by intro h; simp [initState] at h) rfl
     (by intro o ho
         simp only [List.mem_singleton] at ho
         subst ho
         exact ⟨rfl, by norm_num [obsAt, wakeMinDuration]⟩)
     rfl (by norm_num [obsAt, wakeMinDuration])
     (by intro o ho
         simp only [List.mem_singleton] at ho
         subst ho
         rfl)⟩

end BabyMonitor
